import Mathlib

/-!
Verification development for the SKOPOS SFTP Alteryx tools
(`SKOPOSSFTPDownload_v1.0Engine.py` and `SKOPOSSFTPUpload_v1.0Engine.py`).

The two engines are shallowly embedded as pure functions over an oracle
"world" describing the remote server, the local filesystem and the network,
and they produce a trace of observable events (SFTP primitive calls,
messages emitted to the Alteryx engine, records pushed downstream).
Each event in the trace corresponds to one effectful call in the Python
source; the order of events follows the order of the calls in the source.
-/

namespace SFTPTools

/-- Message severity, mirroring `Sdk.EngineMessageType` (`Sdk.Status.info`
is folded into `info`). -/
inductive MsgType where
  | info
  | warning
  | error
deriving DecidableEq, Repr

/-- One remote item as collected by the download engine from
`listdir_attr` / `stat` (`pi_push_all_records` lines 396-407,
`ii_push_record` lines 666-675).  Times are kept as already-formatted
strings, as in the source. -/
structure FileInfo where
  filename : String
  size : Nat
  uid : String := ""
  gid : String := ""
  fmode : String := ""
  atime : String := ""
  mtime : String := ""
  is_file : Bool := true
  is_dir : Bool := false
deriving DecidableEq, Repr

/-- The record pushed downstream by `_process_file`: the shared fields are
always set, the optional fields are set per tool mode
(`build_ayx_output` / `_process_file`). -/
structure OutRecord where
  filename : String
  size : Nat
  atime : String := ""
  mtime : String := ""
  uid : Option String := none
  gid : Option String := none
  fmode : Option String := none
  isDir : Option Bool := none
  isFile : Option Bool := none
  blob : Option (List Nat) := none
  filePath : Option String := none
deriving DecidableEq, Repr

/-- Observable events: each constructor is one effectful call in the
Python source. -/
inductive Ev where
  | msg (t : MsgType) (text : String)
  | connect (host : String)
  | closeConn
  | sftpIsDir (path : String)
  | sftpChdir (path : String)
  | sftpExists (path : String)
  | sftpIsFile (path : String)
  | sftpStat (path : String)
  | sftpGet (remote : String) (localPath : String)
  | sftpPut (localPath : String)
  | sftpPutfo (remote : String)
  | sftpRemove (path : String)
  | sftpRename (src : String) (dst : String)
  | hostkeySave
  | localRemove (path : String)
  | localRename (src : String) (dst : String)
  | pushRecord (r : OutRecord)
deriving DecidableEq, Repr

/-- One record of the known-hosts store (`pysftp.CnOpts().hostkeys`). -/
structure HostRec where
  host : String
  keytype : String
  key : String
deriving DecidableEq, Repr

/-- Outcome of the `pysftp.Connection(...)` constructor, matching the
four `except` arms of `_init_sftp`. -/
inductive ConnectOutcome where
  | ok
  | connErr
  | credErr
  | badAuth
  | otherErr
deriving DecidableEq, Repr

/-- `ToolMode` enum of the download engine. -/
inductive ToolMode where
  | NONE_MODE
  | LIST_FILES
  | DOWNLOAD_TO_PATH
  | DOWNLOAD_TO_BLOB
deriving DecidableEq, Repr

/-- `UploadMode` enum of the upload engine. -/
inductive UploadMode where
  | NONE_MODE
  | UPLOAD_FILES
  | UPLOAD_BLOBS
deriving DecidableEq, Repr

/-- `FileHandling` enum (identical in both engines). -/
inductive FileHandling where
  | NONE_HANDLING
  | KEEP_FILES
  | DELETE_FILES
  | MOVE_FILES
deriving DecidableEq, Repr

/-- `hostkeys.lookup` on the in-memory known-hosts store. -/
def lookupHost (store : List HostRec) (h : String) : Option HostRec :=
  store.find? (fun r => r.host == h)

/-- Result of `_init_sftp`: the returned connection (`ok` = a connection
object, `!ok` = the Python `False`), the emitted events, and the
known-hosts store after the call. -/
structure InitResult where
  ok : Bool
  evs : List Ev
  store : List HostRec
deriving Repr

/-- Settings of the download engine, as held in `self.sftp_settings`,
`self.tool_mode`, `self.output_settings` and `self.file_handling` after
`pi_init`.  `remote_path` and `local_path` already carry their trailing
separator (added in `pi_init`). -/
structure DlConfig where
  hostname : String := "host"
  remote_path : String := "/data/"
  move_path : String := "/moved"
  local_path : String := "/local/"
  blobfield : String := "DownloadedData"
  tool_mode : ToolMode := ToolMode.LIST_FILES
  file_handling : FileHandling := FileHandling.NONE_HANDLING

/-- Oracle describing the engine environment and the remote server for one
run of the download engine.  Function-valued fields answer, per filename,
what the corresponding effectful call would do. -/
structure DlWorld where
  updateOnly : Bool := false
  /-- Abstract result of `validate_settings` (GUI settings + local
  filesystem checks). -/
  validateOk : Bool := true
  /-- known-hosts store as loaded by `pysftp.CnOpts()`. -/
  store : List HostRec := []
  /-- Outcome of the n-th `pysftp.Connection(...)` attempt of the run. -/
  connSeq : Nat → ConnectOutcome := fun _ => ConnectOutcome.ok
  serverKeyType : String := "ssh-rsa"
  serverKey : String := "KEY"
  /-- `sftp_conn.isdir(remote_path)` in `_init_sftp`. -/
  remotePathIsDir : Bool := true
  /-- whether `sftp_conn.chdir(remote_path)` raises `IOError`. -/
  chdirFails : Bool := false
  /-- directory listing from `listdir_attr`, attributes precomputed. -/
  files : List FileInfo := []
  /-- `alteryx_engine.create_temp_file_name` for the given filename. -/
  tempNameFor : String → String := fun s => "tmp/" ++ s
  /-- whether `sftp_conn.get` raises `IOError` for the given filename. -/
  getFails : String → Bool := fun _ => false
  /-- bytes found in the local destination file after `sftp_conn.get`
  (paramiko opens the local file before transferring, so the file exists
  with full, partial or empty content even when the transfer failed). -/
  contentAfterGet : String → List Nat := fun _ => []
  /-- `sftp_conn.pwd` after the chdir in `_init_sftp`. -/
  pwd : String := "/data"
  /-- `sftp_conn.normalize(move_path)`. -/
  moveNormalized : String := "/moved"
  /-- `sftp_conn.exists(move_path)`. -/
  moveTargetExists : Bool := true
  /-- `sftp_conn.isdir(move_path)`. -/
  moveTargetIsDir : Bool := true
  /-- whether `sftp_conn.rename` raises `IOError` for the given filename. -/
  renameFails : String → Bool := fun _ => false
  /-- whether `sftp_conn.remove` raises `IOError` for the given filename. -/
  removeFails : String → Bool := fun _ => false
  /-- streaming mode: `sftp_conn.exists(filename)`. -/
  remoteExists : String → Bool := fun _ => true
  /-- streaming mode: `sftp_conn.isfile(filename)`. -/
  remoteIsFile : String → Bool := fun _ => true
  /-- streaming mode: attributes from `sftp_conn.stat(filename)`. -/
  statOf : String → FileInfo := fun s => { filename := s, size := 0 }

/-- `AyxPlugin._init_sftp` of the download engine (lines 234-293).
`store` is the known-hosts store loaded by `pysftp.CnOpts()`, `co` the
outcome of the `pysftp.Connection(...)` constructor. -/
def dlInitSftp (w : DlWorld) (cfg : DlConfig) (store : List HostRec)
    (co : ConnectOutcome) : InitResult :=
  let unknown : Bool := (lookupHost store cfg.hostname).isNone
  let preEvs : List Ev :=
    if unknown then
      [Ev.msg MsgType.warning
        ("Unkown host " ++ cfg.hostname ++ ". Any host key will be accepted.")]
    else []
  match co with
  | ConnectOutcome.connErr =>
      { ok := false
        evs := preEvs ++ [Ev.msg MsgType.error
          "Could not connect to server. Please check settings."]
        store := store }
  | ConnectOutcome.credErr =>
      { ok := false
        evs := preEvs ++ [Ev.msg MsgType.error
          "Authentication failed. Please check credentials."]
        store := store }
  | ConnectOutcome.badAuth =>
      { ok := false
        evs := preEvs ++ [Ev.msg MsgType.error "Unsupported Authentication Type"]
        store := store }
  | ConnectOutcome.otherErr =>
      { ok := false
        evs := preEvs ++ [Ev.msg MsgType.error "Connection error"]
        store := store }
  | ConnectOutcome.ok =>
      let cacheEvs : List Ev :=
        if unknown then
          [Ev.msg MsgType.warning
            "Connected to unknown host. Caching its hostkey to known_hosts.",
           Ev.hostkeySave]
        else []
      let store1 : List HostRec :=
        if unknown then
          store ++ [{ host := cfg.hostname, keytype := w.serverKeyType,
                      key := w.serverKey }]
        else store
      let evs0 : List Ev :=
        preEvs ++ [Ev.connect cfg.hostname] ++ cacheEvs ++
        [Ev.msg MsgType.info ("Connected successfully to " ++ cfg.hostname),
         Ev.sftpIsDir cfg.remote_path]
      if !w.remotePathIsDir then
        { ok := false
          evs := evs0 ++ [Ev.msg MsgType.error
            ("Remote path " ++ cfg.remote_path ++ " is not a directory.")]
          store := store1 }
      else
        let evs1 := evs0 ++ [Ev.sftpChdir cfg.remote_path]
        if w.chdirFails then
          { ok := false
            evs := evs1 ++ [Ev.msg MsgType.error
              ("Remote path does not exist: " ++ cfg.remote_path)]
            store := store1 }
        else
          { ok := true, evs := evs1, store := store1 }

/-- Local destination filename chosen in `_process_file` (lines 485-490):
the engine temp name in blob mode, `os.path.join(local_path, filename)`
in path mode. -/
def dlOutFname (w : DlWorld) (cfg : DlConfig) (f : FileInfo) : String :=
  match cfg.tool_mode with
  | ToolMode.DOWNLOAD_TO_BLOB => w.tempNameFor f.filename
  | ToolMode.DOWNLOAD_TO_PATH => cfg.local_path ++ f.filename
  | _ => ""

/-- The record assembled by `_process_file` (lines 470-510): shared fields
always, list-mode fields in `LIST_FILES`, the blob read back from the
temporary file in `DOWNLOAD_TO_BLOB`, the local path in
`DOWNLOAD_TO_PATH`. -/
def dlRecord (w : DlWorld) (cfg : DlConfig) (f : FileInfo) (outF : String) :
    OutRecord :=
  let base : OutRecord :=
    { filename := f.filename, size := f.size, atime := f.atime, mtime := f.mtime }
  match cfg.tool_mode with
  | ToolMode.LIST_FILES =>
      { base with uid := some f.uid, gid := some f.gid, fmode := some f.fmode,
                  isDir := some f.is_dir, isFile := some f.is_file }
  | ToolMode.DOWNLOAD_TO_BLOB =>
      { base with blob := some (w.contentAfterGet f.filename) }
  | ToolMode.DOWNLOAD_TO_PATH => { base with filePath := some outF }
  | ToolMode.NONE_MODE => base

/-- `AyxPlugin._process_file` (lines 458-549).  Note that the
file-handling block (lines 518-549) runs unconditionally after the record
is pushed: it is not guarded by the success of the transfer. -/
def dlProcessFile (w : DlWorld) (cfg : DlConfig) (f : FileInfo) : List Ev :=
  let outF := dlOutFname w cfg f
  let transferEvs : List Ev :=
    if cfg.tool_mode = ToolMode.LIST_FILES then []
    else
      [Ev.sftpGet f.filename outF] ++
      (if w.getFails f.filename then
        [Ev.msg MsgType.error ("Error transferring file " ++ f.filename)]
       else [])
  let pushEvs : List Ev := [Ev.pushRecord (dlRecord w cfg f outF)]
  let handleEvs : List Ev :=
    match cfg.file_handling with
    | FileHandling.MOVE_FILES =>
        [Ev.sftpExists cfg.move_path] ++
        (if !w.moveTargetExists then
          [Ev.msg MsgType.warning
            ("The target folder " ++ cfg.move_path ++ " does not exist.")]
         else
          [Ev.sftpIsDir cfg.move_path] ++
          (if !w.moveTargetIsDir then
            [Ev.msg MsgType.warning
              ("The target folder " ++ cfg.move_path ++ " is not a directory.")]
           else
            [Ev.sftpRename (w.pwd ++ "/" ++ f.filename)
                           (w.moveNormalized ++ "/" ++ f.filename)] ++
            (if w.renameFails f.filename then
              [Ev.msg MsgType.error ("Error moving file " ++ f.filename)]
             else
              [Ev.msg MsgType.info
                ("File " ++ f.filename ++ " moved to " ++ w.moveNormalized ++ ".")])))
    | FileHandling.DELETE_FILES =>
        [Ev.sftpRemove (w.pwd ++ "/" ++ f.filename)] ++
        (if w.removeFails f.filename then
          [Ev.msg MsgType.error ("Error deleting file " ++ f.filename)]
         else
          [Ev.msg MsgType.info ("File " ++ f.filename ++ " deleted from server.")])
    | _ => []
  transferEvs ++ pushEvs ++ handleEvs

/-- One iteration of the item loop of `pi_push_all_records`
(lines 414-426): non-files are skipped with a warning in any non-list
mode, otherwise the item goes through `_process_file`. -/
def dlBatchItem (w : DlWorld) (cfg : DlConfig) (f : FileInfo) : List Ev :=
  if f.is_file = false ∧ cfg.tool_mode ≠ ToolMode.LIST_FILES then
    [Ev.msg MsgType.warning
      (cfg.remote_path ++ f.filename ++ " is not a file. Skipped.")]
  else
    dlProcessFile w cfg f

/-- Final info message of `pi_push_all_records` (lines 432-436). -/
def dlFinalMsg (w : DlWorld) (cfg : DlConfig) : String :=
  if cfg.tool_mode = ToolMode.LIST_FILES then
    toString w.files.length ++ " items in found in directory " ++
      cfg.hostname ++ cfg.remote_path
  else
    toString (w.files.filter (fun f => f.is_file)).length ++
      " files downloaded from " ++ cfg.hostname ++ cfg.remote_path

/-- `AyxPlugin.pi_push_all_records` of the download engine
(lines 365-440): returns the method result and the event trace of the
run.  On a failed `_init_sftp` the method returns `False` with no further
events — in particular without closing the connection. -/
def dlPushAllRecords (w : DlWorld) (cfg : DlConfig) : Bool × List Ev :=
  if w.updateOnly then (false, [])
  else if !w.validateOk then (false, [])
  else
    let r := dlInitSftp w cfg w.store (w.connSeq 0)
    if !r.ok then (false, r.evs)
    else
      let itemEvs := (w.files.map (dlBatchItem w cfg)).flatten
      (true, r.evs ++ itemEvs ++ [Ev.closeConn, Ev.msg MsgType.info (dlFinalMsg w cfg)])

/-! ### Upload engine -/

/-- Settings of the upload engine after `pi_init`
(`SKOPOSSFTPUpload_v1.0Engine.py`).  `remote_path` carries its trailing
separator, `move_path` its trailing separator from `os.path.join`. -/
structure UlConfig where
  hostname : String := "host"
  remote_path : String := "/up/"
  upload_mode : UploadMode := UploadMode.UPLOAD_FILES
  file_handling : FileHandling := FileHandling.KEEP_FILES
  move_path : String := "/moved/"
  overwrite : Bool := false

/-- Oracle world for one run of the upload engine. -/
structure UlWorld where
  updateOnly : Bool := false
  validateOk : Bool := true
  store : List HostRec := []
  connSeq : Nat → ConnectOutcome := fun _ => ConnectOutcome.ok
  serverKeyType : String := "ssh-ed25519"
  serverKey : String := "UKEY"
  /-- whether `sftp_conn.chdir(remote_path)` raises `IOError`. -/
  chdirFails : Bool := false
  /-- `os.path.exists` on the incoming local path. -/
  localExists : String → Bool := fun _ => true
  /-- `os.path.isfile` on the incoming local path. -/
  localIsFile : String → Bool := fun _ => true
  /-- `sftp_conn.exists` for the target filename. -/
  remoteExists : String → Bool := fun _ => false
  /-- whether `sftp_conn.put` raises for the given local path. -/
  putFails : String → Bool := fun _ => false
  /-- whether `sftp_conn.putfo` raises for the given remote name. -/
  putfoFails : String → Bool := fun _ => false
  /-- whether `os.remove` raises for the given local path. -/
  localRemoveFails : String → Bool := fun _ => false
  /-- whether `os.rename` raises for the given local path. -/
  localRenameFails : String → Bool := fun _ => false

/-- `AyxPlugin._init_sftp` of the upload engine (lines 154-210).  Unlike
the download engine it performs no `isdir` check on the remote path: it
goes straight to `chdir` and only catches `IOError` from it. -/
def ulInitSftp (w : UlWorld) (cfg : UlConfig) (store : List HostRec)
    (co : ConnectOutcome) : InitResult :=
  let unknown : Bool := (lookupHost store cfg.hostname).isNone
  let preEvs : List Ev :=
    if unknown then
      [Ev.msg MsgType.warning
        ("Unkown host " ++ cfg.hostname ++ ". Any host key will be accepted.")]
    else []
  match co with
  | ConnectOutcome.connErr =>
      { ok := false
        evs := preEvs ++ [Ev.msg MsgType.error
          "Could not connect to server. Please check settings."]
        store := store }
  | ConnectOutcome.credErr =>
      { ok := false
        evs := preEvs ++ [Ev.msg MsgType.error
          "Authentication failed. Please check credentials."]
        store := store }
  | ConnectOutcome.badAuth =>
      { ok := false
        evs := preEvs ++ [Ev.msg MsgType.error "Unsupported Authentication Type"]
        store := store }
  | ConnectOutcome.otherErr =>
      { ok := false
        evs := preEvs ++ [Ev.msg MsgType.error "Connection error"]
        store := store }
  | ConnectOutcome.ok =>
      let cacheEvs : List Ev :=
        if unknown then
          [Ev.msg MsgType.warning
            "Connected to unknown host. Caching its hostkey to known_hosts.",
           Ev.hostkeySave]
        else []
      let store1 : List HostRec :=
        if unknown then
          store ++ [{ host := cfg.hostname, keytype := w.serverKeyType,
                      key := w.serverKey }]
        else store
      let evs0 : List Ev :=
        preEvs ++ [Ev.connect cfg.hostname] ++ cacheEvs ++
        [Ev.msg MsgType.info ("Connected successfully to " ++ cfg.hostname),
         Ev.sftpChdir cfg.remote_path]
      if w.chdirFails then
        { ok := false
          evs := evs0 ++ [Ev.msg MsgType.error
            ("Remote path does not exist: " ++ cfg.remote_path)]
          store := store1 }
      else
        { ok := true, evs := evs0, store := store1 }

/-! ### Streaming (incoming-connection) mode -/

/-- State of an `IncomingInterface` between `ii_push_record` calls, shared
by both engines.  `conn` mirrors the truthiness of `self.sftp_conn`;
`attempts` counts `_init_sftp` calls (used only to index `connSeq`);
`ready` is a ghost counter of the `_init_sftp` calls that returned a
ready session, i.e. of successful connection establishments. -/
structure StreamState where
  conn : Bool := false
  attempts : Nat := 0
  store : List HostRec := []
  fileCounter : Nat := 0
  ready : Nat := 0
deriving Repr

/-- Result of the lazy-connection block `if not self.sftp_conn: ...` of
`ii_push_record` (download lines 646-649, upload lines 397-400). -/
structure ConnStep where
  st : StreamState
  evs : List Ev
  failed : Bool

/-- Lazy-connection block of the download engine's `ii_push_record`. -/
def dlConnectStep (w : DlWorld) (cfg : DlConfig) (st : StreamState) : ConnStep :=
  if st.conn then { st := st, evs := [], failed := false }
  else
    let r := dlInitSftp w cfg st.store (w.connSeq st.attempts)
    let st1 : StreamState :=
      { st with conn := r.ok, attempts := st.attempts + 1, store := r.store,
                ready := st.ready + (if r.ok then 1 else 0) }
    { st := st1, evs := r.evs, failed := !r.ok }

/-- Lazy-connection block of the upload engine's `ii_push_record`. -/
def ulConnectStep (w : UlWorld) (cfg : UlConfig) (st : StreamState) : ConnStep :=
  if st.conn then { st := st, evs := [], failed := false }
  else
    let r := ulInitSftp w cfg st.store (w.connSeq st.attempts)
    let st1 : StreamState :=
      { st with conn := r.ok, attempts := st.attempts + 1, store := r.store,
                ready := st.ready + (if r.ok then 1 else 0) }
    { st := st1, evs := r.evs, failed := !r.ok }

/-- `IncomingInterface.ii_push_record` of the download engine
(lines 626-684).  `fname` is the value of the selected incoming field. -/
def dlIiPushRecord (w : DlWorld) (cfg : DlConfig) (st : StreamState)
    (fname : String) : StreamState × List Ev :=
  if w.updateOnly then (st, [])
  else if !w.validateOk then (st, [])
  else if cfg.tool_mode = ToolMode.LIST_FILES then
    (st, [Ev.msg MsgType.error
      "List Files is not supported when filenames are provided through an incoming connection."])
  else
    let c := dlConnectStep w cfg st
    if c.failed then (c.st, c.evs)
    else
      let evs1 := c.evs ++ [Ev.sftpExists fname]
      if !w.remoteExists fname then
        (c.st, evs1 ++ [Ev.msg MsgType.warning
          ("File " ++ cfg.remote_path ++ fname ++ " does not exist. Skipped.")])
      else
        let evs2 := evs1 ++ [Ev.sftpIsFile fname]
        if !w.remoteIsFile fname then
          (c.st, evs2 ++ [Ev.msg MsgType.warning
            ("File " ++ cfg.remote_path ++ fname ++ " is actually a folder. Skipped.")])
        else
          let fa := w.statOf fname
          let evs3 := evs2 ++ [Ev.sftpStat fname] ++
            dlProcessFile w cfg { fa with filename := fname }
          ({ c.st with fileCounter := c.st.fileCounter + 1 }, evs3)

/-- `IncomingInterface.ii_close` of the download engine (lines 694-708). -/
def dlIiClose (cfg : DlConfig) (st : StreamState) : List Ev :=
  (if st.conn then [Ev.closeConn] else []) ++
  [Ev.msg MsgType.info
    (if cfg.tool_mode = ToolMode.LIST_FILES then
      toString st.fileCounter ++ " items in found in directory " ++
        cfg.hostname ++ cfg.remote_path
     else
      toString st.fileCounter ++ " files downloaded from " ++
        cfg.hostname ++ cfg.remote_path)]

/-- Folding `ii_push_record` over the incoming stream of the download
engine, accumulating the trace. -/
def dlIiStep (w : DlWorld) (cfg : DlConfig) (acc : StreamState × List Ev)
    (fname : String) : StreamState × List Ev :=
  let r := dlIiPushRecord w cfg acc.1 fname
  (r.1, acc.2 ++ r.2)

/-- Initial `IncomingInterface` state of a streaming run. -/
def initStream (store : List HostRec) : StreamState := { store := store }

/-- All `ii_push_record` calls of one streaming download run. -/
def dlIiFold (w : DlWorld) (cfg : DlConfig) (fnames : List String) :
    StreamState × List Ev :=
  fnames.foldl (dlIiStep w cfg) (initStream w.store, [])

/-- A whole streaming download run: every incoming record, then
`ii_close`. -/
def dlIiRun (w : DlWorld) (cfg : DlConfig) (fnames : List String) : List Ev :=
  (dlIiFold w cfg fnames).2 ++ dlIiClose cfg (dlIiFold w cfg fnames).1

/-- One incoming record of the upload engine: the value of the filename
field and the value of the blob field. -/
structure UlRecIn where
  fname : String
  blob : List Nat := []
deriving DecidableEq, Repr

/-- `os.path.split(path)[1]`: everything after the last path
separator. -/
def basename (p : String) : String :=
  String.mk ((p.data.reverse.takeWhile (fun c => c != '/')).reverse)

/-- The per-record work of the upload engine after the connection is
available (`ii_push_record` lines 403-466): the emitted events and
whether the record ran to the final `file_counter` increment (the early
`return True` paths do not increment it). -/
def ulProcessAfterConnect (w : UlWorld) (cfg : UlConfig) (r : UlRecIn) :
    List Ev × Bool :=
  match cfg.upload_mode with
  | UploadMode.UPLOAD_FILES =>
      let fpath := r.fname
      if !w.localExists fpath then
        ([Ev.msg MsgType.error ("File " ++ fpath ++ " does not exist.")], false)
      else if !w.localIsFile fpath then
        ([Ev.msg MsgType.error
           ("File " ++ fpath ++ " is actually a folder. Please provide a file name.")],
         false)
      else
        let fname := basename fpath
        if w.remoteExists fname && !cfg.overwrite then
          ([Ev.sftpExists fname,
            Ev.msg MsgType.warning
              ("File " ++ cfg.remote_path ++ fname ++ " already exists. Skipped.")],
           false)
        else
          let evs2 := [Ev.sftpExists fname, Ev.sftpPut fpath] ++
            (if w.putFails fpath then
              [Ev.msg MsgType.error ("File " ++ fname ++ " could not be uploaded.")]
             else
              [Ev.msg MsgType.info
                (fname ++ " successfully uploaded to " ++ cfg.remote_path ++ fname)])
          let handleEvs : List Ev :=
            match cfg.file_handling with
            | FileHandling.DELETE_FILES =>
                [Ev.localRemove fpath] ++
                (if w.localRemoveFails fpath then
                  [Ev.msg MsgType.error ("Could not delete " ++ fpath)]
                 else [])
            | FileHandling.MOVE_FILES =>
                [Ev.localRename fpath (cfg.move_path ++ fname)] ++
                (if w.localRenameFails fpath then
                  [Ev.msg MsgType.error ("Could not move " ++ fpath)]
                 else [])
            | _ => []
          (evs2 ++ handleEvs, true)
  | UploadMode.UPLOAD_BLOBS =>
      let fname := r.fname
      if fname = "" then
        ([Ev.msg MsgType.error "No filename provided. Cannot upload."], false)
      else if w.remoteExists fname && !cfg.overwrite then
        ([Ev.sftpExists fname,
          Ev.msg MsgType.warning
            ("File " ++ cfg.remote_path ++ fname ++ " already exists. Skipped.")],
         false)
      else
        ([Ev.sftpExists fname, Ev.sftpPutfo fname] ++
          (if w.putfoFails fname then
            [Ev.msg MsgType.error ("Error uploading " ++ fname)]
           else
            [Ev.msg MsgType.info
              (fname ++ " successfully uploaded to " ++ cfg.remote_path ++ fname)]),
         true)
  | UploadMode.NONE_MODE => ([], true)

/-- `IncomingInterface.ii_push_record` of the upload engine
(lines 381-468).  Note that in `UPLOAD_FILES` mode the local
file-handling block (lines 431-443) runs after the `put` whether or not
the `put` raised. -/
def ulIiPushRecord (w : UlWorld) (cfg : UlConfig) (st : StreamState)
    (r : UlRecIn) : StreamState × List Ev :=
  if w.updateOnly then (st, [])
  else if !w.validateOk then (st, [])
  else
    let c := ulConnectStep w cfg st
    if c.failed then (c.st, c.evs)
    else
      let p := ulProcessAfterConnect w cfg r
      (if p.2 then { c.st with fileCounter := c.st.fileCounter + 1 } else c.st,
       c.evs ++ p.1)

/-- `IncomingInterface.ii_close` of the upload engine (lines 477-483). -/
def ulIiClose (st : StreamState) : List Ev :=
  if st.conn then [Ev.closeConn] else []

/-- Folding `ii_push_record` over the incoming stream of the upload
engine. -/
def ulIiStep (w : UlWorld) (cfg : UlConfig) (acc : StreamState × List Ev)
    (r : UlRecIn) : StreamState × List Ev :=
  let s := ulIiPushRecord w cfg acc.1 r
  (s.1, acc.2 ++ s.2)

/-- All `ii_push_record` calls of one streaming upload run. -/
def ulIiFold (w : UlWorld) (cfg : UlConfig) (rs : List UlRecIn) :
    StreamState × List Ev :=
  rs.foldl (ulIiStep w cfg) (initStream w.store, [])

/-- A whole streaming upload run: every incoming record, then `ii_close`. -/
def ulIiRun (w : UlWorld) (cfg : UlConfig) (rs : List UlRecIn) : List Ev :=
  (ulIiFold w cfg rs).2 ++ ulIiClose (ulIiFold w cfg rs).1

/-! ### Configuration-XML extractor -/

/-- `AyxPlugin._prep_xmltext` (identical in both engines, download
lines 551-563, upload lines 300-312).  The XML element for the key is
modelled as `Option (Option String)`: `none` when absent, `some none`
when present with no text node, `some (some s)` when present with text
`s`.  `findtext` returns the element text with a missing text node
replaced by the empty string, or `none` (its default) when the element is
absent; the Python `if`-condition tests the truthiness of that result and
that `find(key).text is not None`. -/
def pyStrip (s : String) : String :=
  String.mk (((s.data.dropWhile Char.isWhitespace).reverse.dropWhile
    Char.isWhitespace).reverse)

def prep_xmltext (elem : Option (Option String)) : Option String :=
  let findtextRes : Option String := elem.map (fun t => t.getD "")
  let cond : Bool :=
    (match findtextRes with
     | some s => !(s == "")
     | none => false) &&
    (match elem with
     | some (some _) => true
     | _ => false)
  let t : Option String :=
    if cond then
      match elem with
      | some (some s) => some (pyStrip s)
      | _ => none
    else none
  match t with
  | some s => if s = "" then none else some s
  | none => none

/-! ### Trace observations -/

/-- Count of warning messages in a trace. -/
def warnCount (evs : List Ev) : Nat :=
  (evs.filter (fun e =>
    match e with
    | Ev.msg MsgType.warning _ => true
    | _ => false)).length

/-- Count of `close()` calls in a trace. -/
def closeCount (evs : List Ev) : Nat :=
  (evs.filter (fun e =>
    match e with
    | Ev.closeConn => true
    | _ => false)).length

/-- Does the trace contain an `isdir` query? -/
def hasIsDirCheck (evs : List Ev) : Bool :=
  evs.any (fun e =>
    match e with
    | Ev.sftpIsDir _ => true
    | _ => false)

/-- Does the trace contain a `chdir` call? -/
def hasChdir (evs : List Ev) : Bool :=
  evs.any (fun e =>
    match e with
    | Ev.sftpChdir _ => true
    | _ => false)

/-- Does the trace contain a removal of a local file? -/
def hasLocalRemove (evs : List Ev) : Bool :=
  evs.any (fun e =>
    match e with
    | Ev.localRemove _ => true
    | _ => false)

/-! ### Concrete runs used as counterexamples, failing inputs and
witnesses -/

/-- A remote plain file `a.txt`. -/
def fileA : FileInfo := { filename := "a.txt", size := 3 }

/-- A remote plain file `b.bin`. -/
def fileB : FileInfo := { filename := "b.bin", size := 2 }

/-- A remote directory `sub`. -/
def dirSub : FileInfo := { filename := "sub", size := 0, is_file := false, is_dir := true }

/-- Download world in which every transfer raises `IOError`. -/
def wFailGet : DlWorld :=
  { files := [fileA], getFails := fun _ => true }

/-- Download config: download-to-path with delete-after-download. -/
def cfgPathDelete : DlConfig :=
  { tool_mode := ToolMode.DOWNLOAD_TO_PATH,
    file_handling := FileHandling.DELETE_FILES }

/-- Upload world in which every `put` raises `IOError`. -/
def wFailPut : UlWorld := { putFails := fun _ => true }

/-- Upload world in which every `putfo` raises. -/
def wFailPutfo : UlWorld := { putfoFails := fun _ => true }

/-- Upload config: upload-from-path with delete-after-upload. -/
def cfgUlDelete : UlConfig :=
  { upload_mode := UploadMode.UPLOAD_FILES,
    file_handling := FileHandling.DELETE_FILES }

/-- A streaming state with an established connection. -/
def stConnected : StreamState := { conn := true, ready := 1 }

/-- Download world whose remote path is not a directory (connection
succeeds at transport level). -/
def wBadRemotePath : DlWorld := { remotePathIsDir := false }

/-- Download config for a plain listing run. -/
def cfgList : DlConfig := { tool_mode := ToolMode.LIST_FILES }

/-- Known-hosts record for the default host. -/
def hostRec0 : HostRec := { host := "host", keytype := "t", key := "k" }

/-- Upload world for a known host whose transport connect succeeds. -/
def wUlPlain : UlWorld := { store := [hostRec0] }

/-- Upload config with defaults. -/
def cfgUlPlain : UlConfig := {}

/-- Blob-download world: the downloaded bytes are `[7, 8]`. -/
def wBlob : DlWorld :=
  { files := [fileB], contentAfterGet := fun _ => [7, 8] }

/-- Download config: download-to-blob, keep files. -/
def cfgBlobKeep : DlConfig :=
  { tool_mode := ToolMode.DOWNLOAD_TO_BLOB,
    file_handling := FileHandling.KEEP_FILES }

/-- Blob-download world of two files in which only the first transfer
fails. -/
def wBlobTwo : DlWorld :=
  { files := [fileA, fileB],
    getFails := fun s => s == "a.txt",
    contentAfterGet := fun s => if s == "a.txt" then [] else [7, 8] }

/-- Download world with all defaults. -/
def wDl0 : DlWorld := {}

/-- Upload world with all defaults. -/
def wUl0 : UlWorld := {}

/-- Download world whose remote `isfile` check answers false. -/
def wNotFile : DlWorld := { remoteIsFile := fun _ => false }

/-- Upload world in which every remote target filename already exists. -/
def wUlRemoteExists : UlWorld := { remoteExists := fun _ => true }

/-- Upload world whose post-connect `chdir` raises `IOError`. -/
def wUlChdirFail : UlWorld := { chdirFails := true }

/-- An incoming upload record carrying a local path. -/
def recX : UlRecIn := { fname := "/l/x.csv" }

/-- An incoming upload record carrying a remote name and blob bytes. -/
def recBlobY : UlRecIn := { fname := "y.bin", blob := [1] }

/-- Upload config in blob mode. -/
def cfgUlBlob : UlConfig := { upload_mode := UploadMode.UPLOAD_BLOBS }

/-! ### Helper lemmas on trace observations -/

theorem closeCount_append (a b : List Ev) :
    closeCount (a ++ b) = closeCount a + closeCount b := by
  simp [closeCount, List.filter_append]

theorem closeCount_dlInit (w : DlWorld) (cfg : DlConfig)
    (store : List HostRec) (co : ConnectOutcome) :
    closeCount (dlInitSftp w cfg store co).evs = 0 := by
  cases co <;> simp only [dlInitSftp] <;> split_ifs <;>
    simp [closeCount, List.filter_append]

theorem closeCount_ulInit (w : UlWorld) (cfg : UlConfig)
    (store : List HostRec) (co : ConnectOutcome) :
    closeCount (ulInitSftp w cfg store co).evs = 0 := by
  cases co <;> simp only [ulInitSftp] <;> split_ifs <;>
    simp [closeCount, List.filter_append]

theorem closeCount_dlProcessFile (w : DlWorld) (cfg : DlConfig) (f : FileInfo) :
    closeCount (dlProcessFile w cfg f) = 0 := by
  simp only [dlProcessFile]
  cases cfg.file_handling <;> split_ifs <;>
    simp [closeCount, List.filter_append]

@[simp]
theorem closeCount_nil : closeCount [] = 0 := rfl

@[simp]
theorem closeCount_cons (e : Ev) (l : List Ev) :
    closeCount (e :: l) =
      (if e = Ev.closeConn then 1 else 0) + closeCount l := by
  cases e <;> simp [closeCount, List.filter_cons, Nat.add_comm]

theorem dlConnectStep_inv (w : DlWorld) (cfg : DlConfig) (st : StreamState)
    (h : st.ready = if st.conn then 1 else 0) :
    (dlConnectStep w cfg st).st.ready =
      (if (dlConnectStep w cfg st).st.conn then 1 else 0) ∧
    closeCount (dlConnectStep w cfg st).evs = 0 := by
  unfold dlConnectStep
  by_cases hc : st.conn = true
  · simp [hc]
    simpa [hc] using h
  · have hcf : st.conn = false := by simpa using hc
    have h0 : st.ready = 0 := by simpa [hcf] using h
    simp [hcf, h0, closeCount_dlInit]

theorem ulConnectStep_inv (w : UlWorld) (cfg : UlConfig) (st : StreamState)
    (h : st.ready = if st.conn then 1 else 0) :
    (ulConnectStep w cfg st).st.ready =
      (if (ulConnectStep w cfg st).st.conn then 1 else 0) ∧
    closeCount (ulConnectStep w cfg st).evs = 0 := by
  unfold ulConnectStep
  by_cases hc : st.conn = true
  · simp [hc]
    simpa [hc] using h
  · have hcf : st.conn = false := by simpa using hc
    have h0 : st.ready = 0 := by simpa [hcf] using h
    simp [hcf, h0, closeCount_ulInit]

theorem dlPush_inv (w : DlWorld) (cfg : DlConfig) (st : StreamState) (fn : String)
    (h : st.ready = if st.conn then 1 else 0) :
    (dlIiPushRecord w cfg st fn).1.ready =
      (if (dlIiPushRecord w cfg st fn).1.conn then 1 else 0) ∧
    closeCount (dlIiPushRecord w cfg st fn).2 = 0 := by
  obtain ⟨hr, hc0⟩ := dlConnectStep_inv w cfg st h
  unfold dlIiPushRecord
  cases hf : (dlConnectStep w cfg st).failed <;>
    split_ifs <;>
      simp_all [closeCount_append, closeCount_dlProcessFile]

theorem closeCount_ulAfter (w : UlWorld) (cfg : UlConfig) (r : UlRecIn) :
    closeCount (ulProcessAfterConnect w cfg r).1 = 0 := by
  cases hm : cfg.upload_mode <;> cases hh : cfg.file_handling <;>
    simp only [ulProcessAfterConnect, hm, hh] <;> (try split_ifs) <;>
      simp [closeCount_append]

theorem ulPush_inv (w : UlWorld) (cfg : UlConfig) (st : StreamState) (r : UlRecIn)
    (h : st.ready = if st.conn then 1 else 0) :
    (ulIiPushRecord w cfg st r).1.ready =
      (if (ulIiPushRecord w cfg st r).1.conn then 1 else 0) ∧
    closeCount (ulIiPushRecord w cfg st r).2 = 0 := by
  obtain ⟨hr, hc0⟩ := ulConnectStep_inv w cfg st h
  unfold ulIiPushRecord
  cases hf : (ulConnectStep w cfg st).failed <;>
    cases hp : (ulProcessAfterConnect w cfg r).2 <;>
      split_ifs <;>
        simp_all [closeCount_append, closeCount_ulAfter]

theorem dlFold_inv (w : DlWorld) (cfg : DlConfig) :
    ∀ (fns : List String) (st : StreamState) (evs : List Ev),
    st.ready = (if st.conn then 1 else 0) → closeCount evs = 0 →
    (fns.foldl (dlIiStep w cfg) (st, evs)).1.ready =
      (if (fns.foldl (dlIiStep w cfg) (st, evs)).1.conn then 1 else 0) ∧
    closeCount (fns.foldl (dlIiStep w cfg) (st, evs)).2 = 0 := by
  intro fns
  induction fns with
  | nil => intro st evs h1 h2; simpa using ⟨h1, h2⟩
  | cons fn rest ih =>
    intro st evs h1 h2
    rw [List.foldl_cons]
    obtain ⟨hs1, hs2⟩ := dlPush_inv w cfg st fn h1
    exact ih _ _ hs1 (by simp [dlIiStep, closeCount_append, h2, hs2])

theorem ulFold_inv (w : UlWorld) (cfg : UlConfig) :
    ∀ (rs : List UlRecIn) (st : StreamState) (evs : List Ev),
    st.ready = (if st.conn then 1 else 0) → closeCount evs = 0 →
    (rs.foldl (ulIiStep w cfg) (st, evs)).1.ready =
      (if (rs.foldl (ulIiStep w cfg) (st, evs)).1.conn then 1 else 0) ∧
    closeCount (rs.foldl (ulIiStep w cfg) (st, evs)).2 = 0 := by
  intro rs
  induction rs with
  | nil => intro st evs h1 h2; simpa using ⟨h1, h2⟩
  | cons r rest ih =>
    intro st evs h1 h2
    rw [List.foldl_cons]
    obtain ⟨hs1, hs2⟩ := ulPush_inv w cfg st r h1
    exact ih _ _ hs1 (by simp [ulIiStep, closeCount_append, h2, hs2])

theorem closeCount_dlIiClose (cfg : DlConfig) (st : StreamState) :
    closeCount (dlIiClose cfg st) = if st.conn then 1 else 0 := by
  cases hc : st.conn <;> simp [dlIiClose, hc, closeCount_append]

theorem closeCount_ulIiClose (st : StreamState) :
    closeCount (ulIiClose st) = if st.conn then 1 else 0 := by
  cases hc : st.conn <;> simp [ulIiClose, hc]

/-! ## Claims -/

/-- C10: `_prep_xmltext` returns `none` when the element is absent, has
no text, or its text is empty or whitespace-only, and otherwise returns
the text with surrounding whitespace stripped; consequently it never
returns the empty string. -/
theorem c10_prep_xmltext (elem : Option (Option String)) :
    prep_xmltext elem =
      (match elem with
       | some (some s) => if pyStrip s = "" then none else some (pyStrip s)
       | _ => none) ∧
    prep_xmltext elem ≠ some "" := by
  rcases elem with _ | t
  · simp [prep_xmltext]
  · rcases t with _ | s
    · simp [prep_xmltext]
    · by_cases hs : s = ""
      · subst hs
        decide
      · by_cases ht : pyStrip s = ""
        · simp [prep_xmltext, hs, ht]
        · simp [prep_xmltext, hs, ht]

/-- C1 fails on the code: a transfer that raises is still followed by the
post-transfer handling of the item's source file.  In the download engine
(`_process_file`), after `sftp_conn.get` on `a.txt` raises `IOError`, the
delete handler still issues `sftp_conn.remove` on the remote source; in
the upload engine (`ii_push_record`), after `sftp_conn.put` on
`/l/x.csv` raises, the delete handler still issues `os.remove` on the
local source. -/
theorem c1_post_handling_after_failed_transfer :
    (wFailGet.getFails "a.txt" = true ∧
     Ev.msg MsgType.error "Error transferring file a.txt" ∈
       dlProcessFile wFailGet cfgPathDelete fileA ∧
     Ev.sftpRemove "/data/a.txt" ∈ dlProcessFile wFailGet cfgPathDelete fileA) ∧
    (wFailPut.putFails "/l/x.csv" = true ∧
     Ev.msg MsgType.error "File x.csv could not be uploaded." ∈
       (ulIiPushRecord wFailPut cfgUlDelete stConnected { fname := "/l/x.csv" }).2 ∧
     Ev.localRemove "/l/x.csv" ∈
       (ulIiPushRecord wFailPut cfgUlDelete stConnected { fname := "/l/x.csv" }).2) := by
  decide

/-- C3 fails on the code: when the transport-level connection succeeds
but the post-connect remote-path check fails, `pi_push_all_records`
returns without ever closing the freshly opened session — the trace
contains the `connect` but no `close`. -/
theorem c3_session_leaked_on_remote_path_failure :
    (dlPushAllRecords wBadRemotePath cfgList).1 = false ∧
    Ev.connect "host" ∈ (dlPushAllRecords wBadRemotePath cfgList).2 ∧
    Ev.closeConn ∉ (dlPushAllRecords wBadRemotePath cfgList).2 := by
  decide

/-- C7 counterexample: a connection attempt of the upload engine that
succeeds at the transport level changes into the remote path without any
`isdir` verification, so the claim that both engines verify the remote
path is a directory before changing into it is false. -/
theorem c7_counterexample :
    (ulInitSftp wUlPlain cfgUlPlain [hostRec0] ConnectOutcome.ok).ok = true ∧
    hasIsDirCheck (ulInitSftp wUlPlain cfgUlPlain [hostRec0] ConnectOutcome.ok).evs = false ∧
    hasChdir (ulInitSftp wUlPlain cfgUlPlain [hostRec0] ConnectOutcome.ok).evs = true := by
  decide

/-- C8 counterexample: in a DownloadToBlob run the item's bytes are read
from the temporary location into the blob payload, yet the temporary
file is never removed — the run's trace contains no local-file removal at
all. -/
theorem c8_counterexample :
    Ev.pushRecord { filename := "b.bin", size := 2, atime := "", mtime := "",
                    blob := some [7, 8] } ∈
      dlProcessFile wBlob cfgBlobKeep fileB ∧
    hasLocalRemove (dlProcessFile wBlob cfgBlobKeep fileB) = false ∧
    hasLocalRemove (dlPushAllRecords wBlob cfgBlobKeep).2 = false := by
  decide


/-- C9: in streaming mode the connection is established lazily (no
connection attempt happens before any record arrives), at most one
session is established per run no matter how many records arrive, and
`ii_close` closes the session exactly as many times as one was
established — in both engines. -/
theorem c9_streaming_lazy_single_session
    (w : DlWorld) (cfg : DlConfig) (fns : List String)
    (uw : UlWorld) (ucfg : UlConfig) (rs : List UlRecIn) :
    ((dlIiFold w cfg fns).1.ready ≤ 1 ∧
     closeCount (dlIiRun w cfg fns) = (dlIiFold w cfg fns).1.ready ∧
     (dlIiFold w cfg ([] : List String)).1.ready = 0 ∧
     (dlIiFold w cfg ([] : List String)).1.attempts = 0) ∧
    ((ulIiFold uw ucfg rs).1.ready ≤ 1 ∧
     closeCount (ulIiRun uw ucfg rs) = (ulIiFold uw ucfg rs).1.ready ∧
     (ulIiFold uw ucfg ([] : List UlRecIn)).1.ready = 0 ∧
     (ulIiFold uw ucfg ([] : List UlRecIn)).1.attempts = 0) := by
  have hdl := dlFold_inv w cfg fns (initStream w.store) []
    (by simp [initStream]) rfl
  have hul := ulFold_inv uw ucfg rs (initStream uw.store) []
    (by simp [initStream]) rfl
  constructor
  · refine ⟨?_, ?_, rfl, rfl⟩
    · unfold dlIiFold
      rw [hdl.1]
      split <;> simp
    · unfold dlIiRun
      rw [closeCount_append, closeCount_dlIiClose]
      unfold dlIiFold
      rw [hdl.2, hdl.1]
      simp
  · refine ⟨?_, ?_, rfl, rfl⟩
    · unfold ulIiFold
      rw [hul.1]
      split <;> simp
    · unfold ulIiRun
      rw [closeCount_append, closeCount_ulIiClose]
      unfold ulIiFold
      rw [hul.2, hul.1]
      simp


/-- C4: for every successful connection to a host not present in the
known-hosts store, `_init_sftp` emits exactly two warnings (the
pre-connect unknown-host warning and the post-connect caching warning)
and appends exactly one new record to the persisted known-hosts store —
in both engines. -/
theorem c4_unknown_host_two_warnings_one_record
    (w : DlWorld) (cfg : DlConfig) (store : List HostRec)
    (uw : UlWorld) (ucfg : UlConfig) (ustore : List HostRec)
    (hdl : lookupHost store cfg.hostname = none)
    (hdir : w.remotePathIsDir = true) (hch : w.chdirFails = false)
    (hul : lookupHost ustore ucfg.hostname = none)
    (huch : uw.chdirFails = false) :
    ((dlInitSftp w cfg store ConnectOutcome.ok).ok = true ∧
     warnCount (dlInitSftp w cfg store ConnectOutcome.ok).evs = 2 ∧
     (dlInitSftp w cfg store ConnectOutcome.ok).store =
       store ++ [{ host := cfg.hostname, keytype := w.serverKeyType,
                   key := w.serverKey }]) ∧
    ((ulInitSftp uw ucfg ustore ConnectOutcome.ok).ok = true ∧
     warnCount (ulInitSftp uw ucfg ustore ConnectOutcome.ok).evs = 2 ∧
     (ulInitSftp uw ucfg ustore ConnectOutcome.ok).store =
       ustore ++ [{ host := ucfg.hostname, keytype := uw.serverKeyType,
                    key := uw.serverKey }]) := by
  constructor
  · simp [dlInitSftp, hdl, hdir, hch, warnCount, List.filter_append]
  · simp [ulInitSftp, hul, huch, warnCount, List.filter_append]

/-- Witness for `c4_unknown_host_two_warnings_one_record` at the default
worlds with an empty known-hosts store. -/
theorem c4_witness :
    lookupHost [] "host" = none ∧
    warnCount (dlInitSftp wDl0 { } [] ConnectOutcome.ok).evs = 2 ∧
    (dlInitSftp wDl0 { } [] ConnectOutcome.ok).store =
      [] ++ [{ host := "host", keytype := "ssh-rsa", key := "KEY" }] ∧
    warnCount (ulInitSftp wUl0 { } [] ConnectOutcome.ok).evs = 2 ∧
    (ulInitSftp wUl0 { } [] ConnectOutcome.ok).store =
      [] ++ [{ host := "host", keytype := "ssh-ed25519", key := "UKEY" }] := by
  have h := c4_unknown_host_two_warnings_one_record wDl0 { } [] wUl0 { } []
    rfl rfl rfl rfl rfl
  exact ⟨rfl, h.1.2.1, h.1.2.2, h.2.2.1, h.2.2.2⟩

/-- C2: a per-item transfer failure is caught at the item boundary and
never aborts the batch, in every mode.  Download batch runs (any tool
mode): the run completes and closes the session, every plain-file item's
record is pushed whatever other items do, a failing transfer yields the
per-item error message, and — in particular — in DownloadToBlob mode the
pushed record's blob payload is the bytes read back from the temporary
download location.  Upload streaming runs: a failing `put`/`putfo`
yields the per-item error message and the record still runs to
completion (the file counter advances and the stream continues). -/
theorem c2_item_transfer_error_does_not_abort_batch
    (w : DlWorld) (cfg : DlConfig) (f : FileInfo)
    (uw : UlWorld) (ucfg : UlConfig) (st : StreamState) (r : UlRecIn)
    (hup : w.updateOnly = false) (hval : w.validateOk = true)
    (hinit : (dlInitSftp w cfg w.store (w.connSeq 0)).ok = true)
    (hf : f ∈ w.files) (hff : f.is_file = true) :
    ((dlPushAllRecords w cfg).1 = true ∧
     Ev.closeConn ∈ (dlPushAllRecords w cfg).2 ∧
     Ev.pushRecord (dlRecord w cfg f (dlOutFname w cfg f)) ∈
       (dlPushAllRecords w cfg).2 ∧
     (cfg.tool_mode ≠ ToolMode.LIST_FILES → w.getFails f.filename = true →
       Ev.msg MsgType.error ("Error transferring file " ++ f.filename) ∈
         (dlPushAllRecords w cfg).2) ∧
     (cfg.tool_mode = ToolMode.DOWNLOAD_TO_BLOB →
       dlRecord w cfg f (dlOutFname w cfg f) =
         { filename := f.filename, size := f.size, atime := f.atime,
           mtime := f.mtime, blob := some (w.contentAfterGet f.filename) })) ∧
    (uw.updateOnly = false → uw.validateOk = true → st.conn = true →
     ((ucfg.upload_mode = UploadMode.UPLOAD_FILES →
       uw.localExists r.fname = true → uw.localIsFile r.fname = true →
       (uw.remoteExists (basename r.fname) && !ucfg.overwrite) = false →
       uw.putFails r.fname = true →
         Ev.msg MsgType.error
           ("File " ++ basename r.fname ++ " could not be uploaded.") ∈
           (ulIiPushRecord uw ucfg st r).2 ∧
         (ulIiPushRecord uw ucfg st r).1.fileCounter = st.fileCounter + 1) ∧
      (ucfg.upload_mode = UploadMode.UPLOAD_BLOBS → r.fname ≠ "" →
       (uw.remoteExists r.fname && !ucfg.overwrite) = false →
       uw.putfoFails r.fname = true →
         Ev.msg MsgType.error ("Error uploading " ++ r.fname) ∈
           (ulIiPushRecord uw ucfg st r).2 ∧
         (ulIiPushRecord uw ucfg st r).1.fileCounter = st.fileCounter + 1))) := by
  have htrace : (dlPushAllRecords w cfg).2 =
      (dlInitSftp w cfg w.store (w.connSeq 0)).evs ++
        (w.files.map (dlBatchItem w cfg)).flatten ++
        [Ev.closeConn, Ev.msg MsgType.info (dlFinalMsg w cfg)] := by
    simp [dlPushAllRecords, hup, hval, hinit]
  have hres : (dlPushAllRecords w cfg).1 = true := by
    simp [dlPushAllRecords, hup, hval, hinit]
  have hitem : dlBatchItem w cfg f = dlProcessFile w cfg f := by
    simp [dlBatchItem, hff]
  have hsub : ∀ e : Ev, e ∈ dlProcessFile w cfg f →
      e ∈ (dlPushAllRecords w cfg).2 := by
    intro e he
    rw [htrace]
    refine List.mem_append.mpr (Or.inl (List.mem_append.mpr (Or.inr ?_)))
    exact List.mem_flatten.mpr
      ⟨dlBatchItem w cfg f, List.mem_map_of_mem _ hf, hitem ▸ he⟩
  constructor
  · refine ⟨hres, ?_, ?_, ?_, ?_⟩
    · rw [htrace]
      simp
    · refine hsub _ ?_
      simp [dlProcessFile]
    · intro hm hg
      refine hsub _ ?_
      simp [dlProcessFile, hm, hg]
    · intro hb
      simp [dlRecord, hb]
  · intro hu1 hu2 hconn
    constructor
    · intro hm hle hlf hskip hpf
      constructor
      · simp [ulIiPushRecord, ulConnectStep, ulProcessAfterConnect,
          hu1, hu2, hconn, hm, hle, hlf, hskip, hpf]
      · simp [ulIiPushRecord, ulConnectStep, ulProcessAfterConnect,
          hu1, hu2, hconn, hm, hle, hlf, hskip, hpf]
    · intro hm hne hskip hpf
      constructor
      · simp [ulIiPushRecord, ulConnectStep, ulProcessAfterConnect,
          hu1, hu2, hconn, hm, hne, hskip, hpf]
      · simp [ulIiPushRecord, ulConnectStep, ulProcessAfterConnect,
          hu1, hu2, hconn, hm, hne, hskip, hpf]

/-- Witness for `c2_item_transfer_error_does_not_abort_batch`: a
two-file DownloadToBlob batch in which the first transfer fails (the
second record is still pushed and the run completes), a DownloadToPath
batch whose only transfer fails (its record is still pushed with the
local path and the run completes), and one failing `put` and one failing
`putfo` streaming upload record, each of which completes its item. -/
theorem c2_witness :
    wBlobTwo.getFails "a.txt" = true ∧
    (dlPushAllRecords wBlobTwo cfgBlobKeep).1 = true ∧
    Ev.msg MsgType.error ("Error transferring file " ++ "a.txt") ∈
      (dlPushAllRecords wBlobTwo cfgBlobKeep).2 ∧
    Ev.pushRecord (dlRecord wBlobTwo cfgBlobKeep fileB
      (dlOutFname wBlobTwo cfgBlobKeep fileB)) ∈
      (dlPushAllRecords wBlobTwo cfgBlobKeep).2 ∧
    dlRecord wBlobTwo cfgBlobKeep fileA (dlOutFname wBlobTwo cfgBlobKeep fileA) =
      { filename := fileA.filename, size := fileA.size, atime := fileA.atime,
        mtime := fileA.mtime, blob := some (wBlobTwo.contentAfterGet "a.txt") } ∧
    Ev.closeConn ∈ (dlPushAllRecords wBlobTwo cfgBlobKeep).2 ∧
    (dlPushAllRecords wFailGet cfgPathDelete).1 = true ∧
    Ev.msg MsgType.error ("Error transferring file " ++ "a.txt") ∈
      (dlPushAllRecords wFailGet cfgPathDelete).2 ∧
    Ev.pushRecord (dlRecord wFailGet cfgPathDelete fileA
      (dlOutFname wFailGet cfgPathDelete fileA)) ∈
      (dlPushAllRecords wFailGet cfgPathDelete).2 ∧
    Ev.msg MsgType.error
      ("File " ++ basename "/l/x.csv" ++ " could not be uploaded.") ∈
      (ulIiPushRecord wFailPut cfgUlDelete stConnected recX).2 ∧
    (ulIiPushRecord wFailPut cfgUlDelete stConnected recX).1.fileCounter =
      stConnected.fileCounter + 1 ∧
    Ev.msg MsgType.error ("Error uploading " ++ "y.bin") ∈
      (ulIiPushRecord wFailPutfo cfgUlBlob stConnected recBlobY).2 ∧
    (ulIiPushRecord wFailPutfo cfgUlBlob stConnected recBlobY).1.fileCounter =
      stConnected.fileCounter + 1 := by
  have hA := c2_item_transfer_error_does_not_abort_batch wBlobTwo cfgBlobKeep
    fileA wFailPut cfgUlDelete stConnected recX rfl rfl rfl (by decide) (by decide)
  have hB := c2_item_transfer_error_does_not_abort_batch wBlobTwo cfgBlobKeep
    fileB wFailPut cfgUlDelete stConnected recX rfl rfl rfl (by decide) (by decide)
  have hP := c2_item_transfer_error_does_not_abort_batch wFailGet cfgPathDelete
    fileA wFailPutfo cfgUlBlob stConnected recBlobY rfl rfl rfl (by decide) (by decide)
  exact ⟨rfl, hA.1.1, hA.1.2.2.2.1 (by decide) (by decide), hB.1.2.2.1,
    hA.1.2.2.2.2 rfl, hA.1.2.1, hP.1.1, hP.1.2.2.2.1 (by decide) (by decide),
    hP.1.2.2.1, ((hA.2 rfl rfl rfl).1 rfl rfl rfl rfl rfl).1,
    ((hA.2 rfl rfl rfl).1 rfl rfl rfl rfl rfl).2,
    ((hP.2 rfl rfl rfl).2 rfl (by decide) rfl rfl).1,
    ((hP.2 rfl rfl rfl).2 rfl (by decide) rfl rfl).2⟩

/-- C5: an enumerated or streamed item that is not a plain file is, in
any non-list mode, skipped with exactly one warning — no download call
is attempted for it and no error is reported.  Batch part: the failing
item's whole contribution to the trace is the single warning.  Streaming
part: the `ii_push_record` trace is the two existence checks followed by
the warning. -/
theorem c5_non_file_items_skipped_with_warning
    (w : DlWorld) (cfg : DlConfig) (f : FileInfo) (st : StreamState)
    (fname : String)
    (hmode : cfg.tool_mode ≠ ToolMode.LIST_FILES) :
    (f.is_file = false →
      dlBatchItem w cfg f =
        [Ev.msg MsgType.warning
          (cfg.remote_path ++ f.filename ++ " is not a file. Skipped.")] ∧
      (∀ a b, Ev.sftpGet a b ∉ dlBatchItem w cfg f) ∧
      (∀ t, Ev.msg MsgType.error t ∉ dlBatchItem w cfg f)) ∧
    (w.updateOnly = false → w.validateOk = true → st.conn = true →
     w.remoteExists fname = true → w.remoteIsFile fname = false →
      (dlIiPushRecord w cfg st fname).2 =
        [Ev.sftpExists fname, Ev.sftpIsFile fname,
         Ev.msg MsgType.warning
           ("File " ++ cfg.remote_path ++ fname ++ " is actually a folder. Skipped.")] ∧
      (∀ a b, Ev.sftpGet a b ∉ (dlIiPushRecord w cfg st fname).2)) := by
  constructor
  · intro hff
    have heq : dlBatchItem w cfg f =
        [Ev.msg MsgType.warning
          (cfg.remote_path ++ f.filename ++ " is not a file. Skipped.")] := by
      simp [dlBatchItem, hff, hmode]
    refine ⟨heq, ?_, ?_⟩
    · intro a b
      rw [heq]
      simp
    · intro t
      rw [heq]
      simp
  · intro hup hval hconn hex hisf
    have heq : (dlIiPushRecord w cfg st fname).2 =
        [Ev.sftpExists fname, Ev.sftpIsFile fname,
         Ev.msg MsgType.warning
           ("File " ++ cfg.remote_path ++ fname ++ " is actually a folder. Skipped.")] := by
      simp [dlIiPushRecord, dlConnectStep, hup, hval, hconn, hex, hisf, hmode]
    refine ⟨heq, ?_⟩
    intro a b
    rw [heq]
    simp

/-- Witness for `c5_non_file_items_skipped_with_warning`: the directory
`sub` is skipped with a warning in a download-to-path batch and in a
streaming run. -/
theorem c5_witness :
    dirSub.is_file = false ∧
    dlBatchItem wDl0 cfgPathDelete dirSub =
      [Ev.msg MsgType.warning
        ("/data/" ++ "sub" ++ " is not a file. Skipped.")] ∧
    (dlIiPushRecord wNotFile cfgPathDelete stConnected "sub").2 =
      [Ev.sftpExists "sub", Ev.sftpIsFile "sub",
       Ev.msg MsgType.warning
         ("File " ++ "/data/" ++ "sub" ++ " is actually a folder. Skipped.")] := by
  have h := c5_non_file_items_skipped_with_warning wDl0 cfgPathDelete dirSub
    stConnected "sub" (by decide)
  have h2 := c5_non_file_items_skipped_with_warning wNotFile cfgPathDelete
    dirSub stConnected "sub" (by decide)
  exact ⟨rfl, (h.1 rfl).1, (h2.2 rfl rfl rfl rfl rfl).1⟩

/-- C6: an upload item whose target filename already exists remotely is,
with `overwrite=false`, skipped with exactly one warning after the
existence check, and neither `put` nor `putfo` is called — in both
upload modes. -/
theorem c6_no_overwrite_skips_put
    (w : UlWorld) (cfg : UlConfig) (st : StreamState) (r : UlRecIn)
    (hconn : st.conn = true) (hup : w.updateOnly = false)
    (hval : w.validateOk = true) (hov : cfg.overwrite = false) :
    (cfg.upload_mode = UploadMode.UPLOAD_FILES →
     w.localExists r.fname = true → w.localIsFile r.fname = true →
     w.remoteExists (basename r.fname) = true →
      (ulIiPushRecord w cfg st r).2 =
        [Ev.sftpExists (basename r.fname),
         Ev.msg MsgType.warning
           ("File " ++ cfg.remote_path ++ basename r.fname ++ " already exists. Skipped.")] ∧
      (∀ p, Ev.sftpPut p ∉ (ulIiPushRecord w cfg st r).2) ∧
      (∀ p, Ev.sftpPutfo p ∉ (ulIiPushRecord w cfg st r).2)) ∧
    (cfg.upload_mode = UploadMode.UPLOAD_BLOBS → r.fname ≠ "" →
     w.remoteExists r.fname = true →
      (ulIiPushRecord w cfg st r).2 =
        [Ev.sftpExists r.fname,
         Ev.msg MsgType.warning
           ("File " ++ cfg.remote_path ++ r.fname ++ " already exists. Skipped.")] ∧
      (∀ p, Ev.sftpPut p ∉ (ulIiPushRecord w cfg st r).2) ∧
      (∀ p, Ev.sftpPutfo p ∉ (ulIiPushRecord w cfg st r).2)) := by
  constructor
  · intro hm hle hlf hre
    have heq : (ulIiPushRecord w cfg st r).2 =
        [Ev.sftpExists (basename r.fname),
         Ev.msg MsgType.warning
           ("File " ++ cfg.remote_path ++ basename r.fname ++ " already exists. Skipped.")] := by
      simp [ulIiPushRecord, ulConnectStep, ulProcessAfterConnect,
        hup, hval, hconn, hm, hle, hlf, hre, hov]
    refine ⟨heq, ?_, ?_⟩
    · intro p
      rw [heq]
      simp
    · intro p
      rw [heq]
      simp
  · intro hm hne hre
    have heq : (ulIiPushRecord w cfg st r).2 =
        [Ev.sftpExists r.fname,
         Ev.msg MsgType.warning
           ("File " ++ cfg.remote_path ++ r.fname ++ " already exists. Skipped.")] := by
      simp [ulIiPushRecord, ulConnectStep, ulProcessAfterConnect,
        hup, hval, hconn, hm, hne, hre, hov]
    refine ⟨heq, ?_, ?_⟩
    · intro p
      rw [heq]
      simp
    · intro p
      rw [heq]
      simp

/-- Witness for `c6_no_overwrite_skips_put` in both upload modes against
a server on which the target name exists. -/
theorem c6_witness :
    wUlRemoteExists.remoteExists "x.csv" = true ∧
    (ulIiPushRecord wUlRemoteExists cfgUlDelete stConnected recX).2 =
      [Ev.sftpExists (basename "/l/x.csv"),
       Ev.msg MsgType.warning
         ("File " ++ "/up/" ++ basename "/l/x.csv" ++ " already exists. Skipped.")] ∧
    (ulIiPushRecord wUlRemoteExists cfgUlBlob stConnected recBlobY).2 =
      [Ev.sftpExists "y.bin",
       Ev.msg MsgType.warning
         ("File " ++ "/up/" ++ "y.bin" ++ " already exists. Skipped.")] := by
  have h1 := c6_no_overwrite_skips_put wUlRemoteExists cfgUlDelete stConnected
    recX rfl rfl rfl rfl
  have h2 := c6_no_overwrite_skips_put wUlRemoteExists cfgUlBlob stConnected
    recBlobY rfl rfl rfl rfl
  exact ⟨rfl, (h1.1 rfl rfl rfl rfl).1, (h2.2 rfl (by decide) rfl).1⟩

/-- C7 amended: only the download engine verifies that the remote path is
a directory before changing into it (failing with an error message and
no `chdir` when it is not); the upload engine performs no such check —
it changes into the remote path directly and fails with an error message
only if the `chdir` itself raises. -/
theorem c7_amended_remote_path_check
    (w : DlWorld) (cfg : DlConfig) (store : List HostRec)
    (uw : UlWorld) (ucfg : UlConfig) (ustore : List HostRec) :
    hasIsDirCheck (dlInitSftp w cfg store ConnectOutcome.ok).evs = true ∧
    (w.remotePathIsDir = false →
      (dlInitSftp w cfg store ConnectOutcome.ok).ok = false ∧
      hasChdir (dlInitSftp w cfg store ConnectOutcome.ok).evs = false ∧
      Ev.msg MsgType.error
        ("Remote path " ++ cfg.remote_path ++ " is not a directory.") ∈
        (dlInitSftp w cfg store ConnectOutcome.ok).evs) ∧
    hasIsDirCheck (ulInitSftp uw ucfg ustore ConnectOutcome.ok).evs = false ∧
    (uw.chdirFails = true →
      (ulInitSftp uw ucfg ustore ConnectOutcome.ok).ok = false ∧
      Ev.msg MsgType.error ("Remote path does not exist: " ++ ucfg.remote_path) ∈
        (ulInitSftp uw ucfg ustore ConnectOutcome.ok).evs) := by
  refine ⟨?_, ?_, ?_, ?_⟩
  · simp only [dlInitSftp]
    split_ifs <;> simp [hasIsDirCheck]
  · intro hnd
    simp only [dlInitSftp]
    split_ifs <;> simp_all [hasChdir]
  · simp only [ulInitSftp]
    split_ifs <;> simp [hasIsDirCheck]
  · intro hcf
    simp only [ulInitSftp]
    split_ifs <;> simp_all

/-- Witness for `c7_amended_remote_path_check`: the download engine with
a non-directory remote path, and the upload engine with a failing
`chdir`. -/
theorem c7_witness :
    hasIsDirCheck (dlInitSftp wBadRemotePath cfgList [] ConnectOutcome.ok).evs = true ∧
    (dlInitSftp wBadRemotePath cfgList [] ConnectOutcome.ok).ok = false ∧
    hasChdir (dlInitSftp wBadRemotePath cfgList [] ConnectOutcome.ok).evs = false ∧
    hasIsDirCheck (ulInitSftp wUlChdirFail cfgUlPlain [] ConnectOutcome.ok).evs = false ∧
    (ulInitSftp wUlChdirFail cfgUlPlain [] ConnectOutcome.ok).ok = false := by
  have h := c7_amended_remote_path_check wBadRemotePath cfgList []
    wUlChdirFail cfgUlPlain []
  exact ⟨h.1, (h.2.1 rfl).1, (h.2.1 rfl).2.1, h.2.2.1, (h.2.2.2 rfl).1⟩

theorem hasLocalRemove_append (a b : List Ev) :
    hasLocalRemove (a ++ b) = (hasLocalRemove a || hasLocalRemove b) := by
  simp [hasLocalRemove]

theorem hasLocalRemove_flatten_eq_false (L : List (List Ev))
    (h : ∀ l ∈ L, hasLocalRemove l = false) :
    hasLocalRemove L.flatten = false := by
  induction L with
  | nil => simp [hasLocalRemove]
  | cons a t ih =>
    rw [List.flatten_cons, hasLocalRemove_append, h a (by simp),
      ih (fun l hl => h l (by simp [hl]))]
    rfl

/-- C8 amended: the download engine never removes the temporary file (or
any local file): neither a single `_process_file` call nor a whole batch
run ever emits a local-file removal; the temporary file's lifecycle is
left to the host engine. -/
theorem c8_amended_no_local_cleanup (w : DlWorld) (cfg : DlConfig)
    (f : FileInfo) :
    hasLocalRemove (dlProcessFile w cfg f) = false ∧
    hasLocalRemove (dlPushAllRecords w cfg).2 = false := by
  have hproc : ∀ g : FileInfo, hasLocalRemove (dlProcessFile w cfg g) = false := by
    intro g
    simp only [dlProcessFile]
    cases cfg.file_handling <;> split_ifs <;> simp [hasLocalRemove]
  refine ⟨hproc f, ?_⟩
  have hbatch : ∀ g : FileInfo, hasLocalRemove (dlBatchItem w cfg g) = false := by
    intro g
    unfold dlBatchItem
    split_ifs
    · simp [hasLocalRemove]
    · exact hproc g
  have hinit : ∀ store co, hasLocalRemove (dlInitSftp w cfg store co).evs = false := by
    intro store co
    cases co <;> simp only [dlInitSftp] <;> split_ifs <;> simp [hasLocalRemove]
  have hflat : hasLocalRemove ((w.files.map (dlBatchItem w cfg)).flatten) = false := by
    refine hasLocalRemove_flatten_eq_false _ ?_
    intro l hl
    obtain ⟨g, hg, rfl⟩ := List.mem_map.mp hl
    exact hbatch g
  unfold dlPushAllRecords
  dsimp only
  split_ifs
  · simp [hasLocalRemove]
  · simp [hasLocalRemove]
  · exact hinit _ _
  · rw [hasLocalRemove_append, hasLocalRemove_append, hinit, hflat]
    simp [hasLocalRemove]

end SFTPTools
